import Mathlib

/-!
# Verification of the anyspend-x402 SVM payment core

A shallow embedding of the repository's SVM gasless payment builders
(`createPaymentHeader`, `createGaslessPaymentHeader`,
`createGaslessApprovalPayment`, `createGaslessNativePayment`), the
facilitator quote client (`getPaymentQuote`), the wire codec for the
`X-PAYMENT` header, and the resource-server protocol core, together with
theorems settling the specification claims.

Strings on the TypeScript side are modelled as byte lists (`ByteStr`);
numeric amounts (decimal-string integers in the source) are modelled as
`Nat`.  Asynchronous effectful functions are modelled as pure functions
over an explicit RPC environment that additionally return the ordered
trace of network/signing effects they performed before returning.
-/

namespace X402

/-- A TypeScript string / byte buffer, modelled as a list of byte values. -/
abbrev ByteStr := List Nat

/-- Embed an ASCII Lean string literal as a `ByteStr`. -/
def strB (s : String) : ByteStr := s.data.map Char.toNat

/-- Well-formedness of a byte string: every entry is a byte. -/
def bytesWF (b : ByteStr) : Prop := ∀ x ∈ b, x < 256

instance (b : ByteStr) : Decidable (bytesWF b) := by
  unfold bytesWF; infer_instance

/-! ## Base64 (standard alphabet, RFC 4648) over byte lists -/

/-- The base64 alphabet: maps a 6-bit value to its ASCII code. -/
def b64Char (n : Nat) : Nat :=
  if n < 26 then 65 + n
  else if n < 52 then 97 + (n - 26)
  else if n < 62 then 48 + (n - 52)
  else if n = 62 then 43
  else 47

/-- Inverse of the base64 alphabet. -/
def b64Val (c : Nat) : Option Nat :=
  if 65 ≤ c ∧ c ≤ 90 then some (c - 65)
  else if 97 ≤ c ∧ c ≤ 122 then some (26 + (c - 97))
  else if 48 ≤ c ∧ c ≤ 57 then some (52 + (c - 48))
  else if c = 43 then some 62
  else if c = 47 then some 63
  else none

/-- Base64-encode a byte list (with `=` padding, ASCII 61). -/
def base64Encode : ByteStr → ByteStr
  | [] => []
  | [a] => [b64Char (a / 4), b64Char (a % 4 * 16), 61, 61]
  | [a, b] => [b64Char (a / 4), b64Char (a % 4 * 16 + b / 16), b64Char (b % 16 * 4), 61]
  | a :: b :: c :: rest =>
      b64Char (a / 4) :: b64Char (a % 4 * 16 + b / 16) :: b64Char (b % 16 * 4 + c / 64)
        :: b64Char (c % 64) :: base64Encode rest

/-- Base64-decode a byte list; `none` on any malformed input. -/
def base64Decode : ByteStr → Option ByteStr
  | [] => some []
  | c1 :: c2 :: c3 :: c4 :: rest =>
      (b64Val c1).bind fun v1 =>
      (b64Val c2).bind fun v2 =>
      if c3 = 61 then
        if c4 = 61 ∧ rest = [] then some [v1 * 4 + v2 / 16] else none
      else
        (b64Val c3).bind fun v3 =>
        if c4 = 61 then
          if rest = [] then some [v1 * 4 + v2 / 16, v2 % 16 * 16 + v3 / 4] else none
        else
          (b64Val c4).bind fun v4 =>
          (base64Decode rest).bind fun tl =>
          some ((v1 * 4 + v2 / 16) :: (v2 % 16 * 16 + v3 / 4) :: (v3 % 4 * 64 + v4) :: tl)
  | _ => none

theorem b64Val_b64Char : ∀ n < 64, b64Val (b64Char n) = some n := by decide

theorem b64Char_ne_61 (n : Nat) : b64Char n ≠ 61 := by
  unfold b64Char
  split
  · omega
  · split
    · omega
    · split
      · omega
      · split <;> omega

theorem base64_decode_encode :
    ∀ bs : ByteStr, bytesWF bs → base64Decode (base64Encode bs) = some bs
  | [], _ => rfl
  | [a], h => by
      have ha : a < 256 := h a (by simp)
      have h1 : a / 4 < 64 := by omega
      have h2 : a % 4 * 16 < 64 := by omega
      simp only [base64Encode, base64Decode, b64Val_b64Char _ h1, b64Val_b64Char _ h2,
        Option.some_bind, and_self, if_true]
      rw [show a / 4 * 4 + a % 4 * 16 / 16 = a from by omega]
  | [a, b], h => by
      have ha : a < 256 := h a (by simp)
      have hb : b < 256 := h b (by simp)
      have h1 : a / 4 < 64 := by omega
      have h2 : a % 4 * 16 + b / 16 < 64 := by omega
      have h3 : b % 16 * 4 < 64 := by omega
      simp only [base64Encode, base64Decode, b64Val_b64Char _ h1, b64Val_b64Char _ h2,
        b64Val_b64Char _ h3, Option.some_bind]
      rw [if_neg (b64Char_ne_61 _)]
      simp only [if_true]
      rw [show a / 4 * 4 + (a % 4 * 16 + b / 16) / 16 = a from by omega,
        show (a % 4 * 16 + b / 16) % 16 * 16 + b % 16 * 4 / 4 = b from by omega]
  | a :: b :: c :: rest, h => by
      have ha : a < 256 := h a (by simp)
      have hb : b < 256 := h b (by simp)
      have hc : c < 256 := h c (by simp)
      have h1 : a / 4 < 64 := by omega
      have h2 : a % 4 * 16 + b / 16 < 64 := by omega
      have h3 : b % 16 * 4 + c / 64 < 64 := by omega
      have h4 : c % 64 < 64 := by omega
      have ih : base64Decode (base64Encode rest) = some rest :=
        base64_decode_encode rest (fun x hx => h x (by simp [hx]))
      simp only [base64Encode, base64Decode, b64Val_b64Char _ h1, b64Val_b64Char _ h2,
        b64Val_b64Char _ h3, b64Val_b64Char _ h4, Option.some_bind]
      rw [if_neg (b64Char_ne_61 _), if_neg (b64Char_ne_61 _), ih]
      simp only [Option.some_bind]
      rw [show a / 4 * 4 + (a % 4 * 16 + b / 16) / 16 = a from by omega,
        show (a % 4 * 16 + b / 16) % 16 * 16 + (b % 16 * 4 + c / 64) / 4 = b from by omega,
        show (b % 16 * 4 + c / 64) % 4 * 64 + c % 64 = c from by omega]

/-! ## Canonical JSON emission and parsing (building blocks) -/

/-- Is the byte an ASCII decimal digit? -/
def isDigitByte (b : Nat) : Bool := decide (48 ≤ b) && decide (b ≤ 57)

/-- Decimal digit bytes of `n` (most-significant first), as emitted by
`JSON.stringify` for an integer. -/
def natDigits (n : Nat) : ByteStr :=
  if n = 0 then [48] else ((Nat.digits 10 n).map (fun d => d + 48)).reverse

/-- Parse a decimal integer (one or more digit bytes), returning the value
and the unconsumed remainder. -/
def parseNatB (s : ByteStr) : Option (Nat × ByteStr) :=
  let ds := s.takeWhile isDigitByte
  if ds.isEmpty then none
  else some (Nat.ofDigits 10 ((ds.map (fun b => b - 48)).reverse), s.dropWhile isDigitByte)

theorem takeWhile_append_all {p : Nat → Bool} :
    ∀ l : List Nat, (∀ x ∈ l, p x = true) → ∀ d : Nat, p d = false → ∀ r : List Nat,
      (l ++ d :: r).takeWhile p = l ∧ (l ++ d :: r).dropWhile p = d :: r := by
  intro l
  induction l with
  | nil =>
      intro _ d hd r
      simp [List.takeWhile, List.dropWhile, hd]
  | cons a t ih =>
      intro hall d hd r
      have ha : p a = true := hall a (by simp)
      have iht := ih (fun x hx => hall x (by simp [hx])) d hd r
      simp [List.takeWhile, List.dropWhile, ha, iht.1, iht.2]

theorem natDigits_all_digit (n : Nat) : ∀ x ∈ natDigits n, isDigitByte x = true := by
  intro x hx
  unfold natDigits at hx
  by_cases h0 : n = 0
  · simp [h0] at hx
    simp [hx, isDigitByte]
  · rw [if_neg h0] at hx
    simp only [List.mem_reverse, List.mem_map] at hx
    obtain ⟨d, hd, rfl⟩ := hx
    have : d < 10 := Nat.digits_lt_base (by norm_num) hd
    simp [isDigitByte]
    omega

theorem parseNatB_round (n d : Nat) (hd : isDigitByte d = false) (r : ByteStr) :
    parseNatB (natDigits n ++ d :: r) = some (n, d :: r) := by
  have tw := takeWhile_append_all (natDigits n) (natDigits_all_digit n) d hd r
  have hne : (natDigits n).isEmpty = false := by
    unfold natDigits
    by_cases h0 : n = 0
    · simp [h0]
    · rw [if_neg h0]
      cases hdigs : Nat.digits 10 n with
      | nil => exact absurd (Nat.digits_eq_nil_iff_eq_zero.mp hdigs) h0
      | cons a l => simp
  have hval : Nat.ofDigits 10 (((natDigits n).map (fun b => b - 48)).reverse) = n := by
    unfold natDigits
    by_cases h0 : n = 0
    · simp [h0, Nat.ofDigits]
    · rw [if_neg h0, List.map_reverse, List.reverse_reverse, List.map_map]
      have hcomp : ((fun b => b - 48) ∘ fun d => d + 48) = id := by
        funext x; simp
      rw [hcomp, List.map_id]
      exact Nat.ofDigits_digits 10 n
  unfold parseNatB
  rw [tw.1, tw.2]
  simp only [hne, Bool.false_eq_true, if_false, hval]

/-- JSON string escaping as `JSON.stringify` performs it for `"` and `\`. -/
def escapeB : ByteStr → ByteStr
  | [] => []
  | b :: rest =>
      if b = 34 ∨ b = 92 then 92 :: b :: escapeB rest else b :: escapeB rest

/-- A JSON string literal: opening quote, escaped body, closing quote. -/
def serializeStrB (s : ByteStr) : ByteStr := 34 :: (escapeB s ++ [34])

/-- Parse a JSON string body up to the closing quote (the opening quote has
already been consumed); returns the unescaped bytes and the remainder. -/
def parseStrB : ByteStr → Option (ByteStr × ByteStr)
  | [] => none
  | b :: rest =>
      if b = 34 then some ([], rest)
      else if b = 92 then
        match rest with
        | [] => none
        | c :: rest2 => (parseStrB rest2).map (fun p => (c :: p.1, p.2))
      else (parseStrB rest).map (fun p => (b :: p.1, p.2))

theorem parseStrB_round : ∀ s r : ByteStr, parseStrB (escapeB s ++ (34 :: r)) = some (s, r)
  | [], r => by
      show parseStrB (escapeB [] ++ (34 :: r)) = some ([], r)
      rw [show escapeB [] = [] from rfl, List.nil_append]
      unfold parseStrB
      rw [if_pos rfl]
  | b :: t, r => by
      have he : escapeB (b :: t)
          = if b = 34 ∨ b = 92 then 92 :: b :: escapeB t else b :: escapeB t := rfl
      by_cases hb : b = 34 ∨ b = 92
      · rw [he, if_pos hb, List.cons_append, List.cons_append]
        unfold parseStrB
        rw [if_neg (by omega : ¬ (92 : Nat) = 34), if_pos rfl]
        show Option.map (fun p => (b :: p.1, p.2)) (parseStrB (escapeB t ++ (34 :: r)))
          = some (b :: t, r)
        rw [parseStrB_round t r]
        rfl
      · push_neg at hb
        rw [he, if_neg (by tauto), List.cons_append]
        unfold parseStrB
        rw [if_neg hb.1, if_neg hb.2]
        show Option.map (fun p => (b :: p.1, p.2)) (parseStrB (escapeB t ++ (34 :: r)))
          = some (b :: t, r)
        rw [parseStrB_round t r]
        rfl

/-- Consume an expected literal byte sequence, returning the remainder. -/
def parseLit : ByteStr → ByteStr → Option ByteStr
  | [], s => some s
  | _ :: _, [] => none
  | l :: ls, t :: ts => if t = l then parseLit ls ts else none

theorem parseLit_append : ∀ l r : ByteStr, parseLit l (l ++ r) = some r
  | [], r => rfl
  | a :: l, r => by
      show parseLit (a :: l) (a :: (l ++ r)) = some r
      unfold parseLit
      rw [if_pos rfl]
      exact parseLit_append l r

/-! ## Payment payload data model

Shapes taken from the gasless client source: `ExactSolanaApprovalPayload`
(`signature` + `approval` record) and `ExactSolanaNativePayload`
(`signature` + `transfer` record), wrapped in the versioned
`PaymentPayload` envelope.  TypeScript strings are `ByteStr`; the
decimal-string amounts are `Nat`. -/

/-- The `approval` record of `ExactSolanaApprovalPayload`. -/
structure ApprovalData where
  owner : ByteStr
  delegate : ByteStr
  tokenAccount : ByteStr
  tokenMint : ByteStr
  value : Nat
  serializedTransaction : ByteStr
  blockhash : ByteStr
  lastValidBlockHeight : Nat
deriving DecidableEq

/-- The `transfer` record of `ExactSolanaNativePayload`. -/
structure NativeTransferData where
  owner : ByteStr
  destination : ByteStr
  value : Nat
  serializedTransaction : ByteStr
  blockhash : ByteStr
  lastValidBlockHeight : Nat
deriving DecidableEq

/-- The scheme-keyed payload variant carried by `PaymentPayload.payload`. -/
inductive SchemePayload where
  | approval (signature : ByteStr) (approval : ApprovalData)
  | nativeTransfer (signature : ByteStr) (transfer : NativeTransferData)
deriving DecidableEq

/-- The client's payment proof envelope. -/
structure PaymentPayload where
  x402Version : Nat
  scheme : ByteStr
  network : ByteStr
  payload : SchemePayload
deriving DecidableEq

/-- All byte-string fields of the payload hold genuine bytes. -/
def payloadWF (p : PaymentPayload) : Prop :=
  bytesWF p.scheme ∧ bytesWF p.network ∧
    match p.payload with
    | .approval sig a =>
        bytesWF sig ∧ bytesWF a.owner ∧ bytesWF a.delegate ∧ bytesWF a.tokenAccount ∧
          bytesWF a.tokenMint ∧ bytesWF a.serializedTransaction ∧ bytesWF a.blockhash
    | .nativeTransfer sig t =>
        bytesWF sig ∧ bytesWF t.owner ∧ bytesWF t.destination ∧
          bytesWF t.serializedTransaction ∧ bytesWF t.blockhash

instance (p : PaymentPayload) : Decidable (payloadWF p) :=
  match p with
  | ⟨_, _, _, .approval _ _⟩ => inferInstanceAs (Decidable (_ ∧ _))
  | ⟨_, _, _, .nativeTransfer _ _⟩ => inferInstanceAs (Decidable (_ ∧ _))

/-! ## Wire codec

Modelled from the spec: the wire codec (`encodePayment` and its inverse)
is not part of the shown corpus (`encodePayment` is imported from a
utilities module); the spec defines the `X-PAYMENT` header as "base64 of
the JSON-encoded `PaymentPayload`", with numeric amounts canonicalized as
decimal-string integers.  The JSON emission below mirrors
`JSON.stringify` on the payload objects built by the gasless client
(object-literal key order, `"` and `\` escaping). -/

def jsonL1 : ByteStr := strB "\x7b\"x402Version\":"
def jsonL2 : ByteStr := strB ",\"scheme\":"
def jsonL3 : ByteStr := strB ",\"network\":"
def jsonL4 : ByteStr := strB ",\"payload\":\x7b\"signature\":"
def jsonKeyComma : ByteStr := strB ","
def jsonOwnerKey : ByteStr := strB ":\x7b\"owner\":"
def jsonDelegateKey : ByteStr := strB ",\"delegate\":"
def jsonTokenAccountKey : ByteStr := strB ",\"tokenAccount\":"
def jsonTokenMintKey : ByteStr := strB ",\"tokenMint\":"
def jsonDestinationKey : ByteStr := strB ",\"destination\":"
def jsonValueKey : ByteStr := strB ",\"value\":\""
def jsonValueClose : ByteStr := strB "\",\"serializedTransaction\":"
def jsonBlockhashKey : ByteStr := strB ",\"blockhash\":"
def jsonHeightKey : ByteStr := strB ",\"lastValidBlockHeight\":"
def jsonEnd : ByteStr := strB "\x7d\x7d\x7d"

/-- JSON for the scheme-specific part, starting at the signature string. -/
def serializeSchemeP : SchemePayload → ByteStr
  | .approval sig a =>
      serializeStrB sig ++ (jsonKeyComma ++ (serializeStrB (strB "approval") ++ (jsonOwnerKey ++
        (serializeStrB a.owner ++ (jsonDelegateKey ++ (serializeStrB a.delegate ++
        (jsonTokenAccountKey ++ (serializeStrB a.tokenAccount ++ (jsonTokenMintKey ++
        (serializeStrB a.tokenMint ++ (jsonValueKey ++ (natDigits a.value ++ (jsonValueClose ++
        (serializeStrB a.serializedTransaction ++ (jsonBlockhashKey ++ (serializeStrB a.blockhash ++
        (jsonHeightKey ++ (natDigits a.lastValidBlockHeight ++ jsonEnd))))))))))))))))))
  | .nativeTransfer sig t =>
      serializeStrB sig ++ (jsonKeyComma ++ (serializeStrB (strB "transfer") ++ (jsonOwnerKey ++
        (serializeStrB t.owner ++ (jsonDestinationKey ++ (serializeStrB t.destination ++
        (jsonValueKey ++ (natDigits t.value ++ (jsonValueClose ++
        (serializeStrB t.serializedTransaction ++ (jsonBlockhashKey ++ (serializeStrB t.blockhash ++
        (jsonHeightKey ++ (natDigits t.lastValidBlockHeight ++ jsonEnd))))))))))))))

/-- The JSON encoding of a `PaymentPayload`. -/
def serializePayment (p : PaymentPayload) : ByteStr :=
  jsonL1 ++ (natDigits p.x402Version ++ (jsonL2 ++ (serializeStrB p.scheme ++
    (jsonL3 ++ (serializeStrB p.network ++ (jsonL4 ++ serializeSchemeP p.payload))))))

/-- Parse a quoted JSON string: opening quote then escaped body. -/
def parseQuoted (s : ByteStr) : Option (ByteStr × ByteStr) :=
  (parseLit [34] s).bind parseStrB

/-- Parse the shared envelope prefix up to and including the `owner`
field: version, scheme, network, signature, variant key, owner. -/
def parseEnvelope (s : ByteStr) :
    Option (Nat × ByteStr × ByteStr × ByteStr × ByteStr × ByteStr × ByteStr) := do
  let s ← parseLit jsonL1 s
  let (ver, s) ← parseNatB s
  let s ← parseLit jsonL2 s
  let (scheme, s) ← parseQuoted s
  let s ← parseLit jsonL3 s
  let (network, s) ← parseQuoted s
  let s ← parseLit jsonL4 s
  let (sig, s) ← parseQuoted s
  let s ← parseLit jsonKeyComma s
  let (key, s) ← parseQuoted s
  let s ← parseLit jsonOwnerKey s
  let (owner, s) ← parseQuoted s
  some (ver, scheme, network, sig, key, owner, s)

/-- Parse the remaining fields of the `approval` variant. -/
def parseApprovalTail (ver : Nat) (scheme network sig owner s : ByteStr) :
    Option PaymentPayload := do
  let s ← parseLit jsonDelegateKey s
  let (delegate, s) ← parseQuoted s
  let s ← parseLit jsonTokenAccountKey s
  let (tokenAccount, s) ← parseQuoted s
  let s ← parseLit jsonTokenMintKey s
  let (tokenMint, s) ← parseQuoted s
  let s ← parseLit jsonValueKey s
  let (value, s) ← parseNatB s
  let s ← parseLit jsonValueClose s
  let (serializedTransaction, s) ← parseQuoted s
  let s ← parseLit jsonBlockhashKey s
  let (blockhash, s) ← parseQuoted s
  let s ← parseLit jsonHeightKey s
  let (height, s) ← parseNatB s
  let s ← parseLit jsonEnd s
  if s.isEmpty then
    some ⟨ver, scheme, network, .approval sig
      ⟨owner, delegate, tokenAccount, tokenMint, value, serializedTransaction,
        blockhash, height⟩⟩
  else none

/-- Parse the remaining fields of the `transfer` variant. -/
def parseTransferTail (ver : Nat) (scheme network sig owner s : ByteStr) :
    Option PaymentPayload := do
  let s ← parseLit jsonDestinationKey s
  let (destination, s) ← parseQuoted s
  let s ← parseLit jsonValueKey s
  let (value, s) ← parseNatB s
  let s ← parseLit jsonValueClose s
  let (serializedTransaction, s) ← parseQuoted s
  let s ← parseLit jsonBlockhashKey s
  let (blockhash, s) ← parseQuoted s
  let s ← parseLit jsonHeightKey s
  let (height, s) ← parseNatB s
  let s ← parseLit jsonEnd s
  if s.isEmpty then
    some ⟨ver, scheme, network, .nativeTransfer sig
      ⟨owner, destination, value, serializedTransaction, blockhash, height⟩⟩
  else none

/-- Parse the JSON encoding of a `PaymentPayload`, rejecting unknown
variants and trailing bytes. -/
def parsePayment (s : ByteStr) : Option PaymentPayload := do
  let (ver, scheme, network, sig, key, owner, s) ← parseEnvelope s
  if key = strB "approval" then parseApprovalTail ver scheme network sig owner s
  else if key = strB "transfer" then parseTransferTail ver scheme network sig owner s
  else none

/-- The `X-PAYMENT` header: base64 of the JSON-encoded payload. -/
def encodePayment (p : PaymentPayload) : ByteStr := base64Encode (serializePayment p)

/-- Decode the `X-PAYMENT` header back into a `PaymentPayload`. -/
def decodePayment (s : ByteStr) : Option PaymentPayload :=
  (base64Decode s).bind parsePayment

theorem doBindSome {α β : Type} (a : α) (f : α → Option β) :
    (do
      let x ← some a
      f x) = f a := rfl

theorem parseQuoted_round (v r : ByteStr) :
    parseQuoted (serializeStrB v ++ r) = some (v, r) := by
  show parseQuoted (34 :: ((escapeB v ++ [34]) ++ r)) = some (v, r)
  unfold parseQuoted parseLit
  rw [if_pos rfl]
  show (parseLit [] ((escapeB v ++ [34]) ++ r)).bind parseStrB = some (v, r)
  unfold parseLit
  rw [Option.some_bind, List.append_assoc,
    show ([34] : ByteStr) ++ r = 34 :: r from rfl, parseStrB_round]

theorem parseLit_self (l : ByteStr) : parseLit l l = some [] := by
  have h := parseLit_append l []
  rwa [List.append_nil] at h

theorem parseNatB_L2 (n : Nat) (r : ByteStr) :
    parseNatB (natDigits n ++ (jsonL2 ++ r)) = some (n, jsonL2 ++ r) := by
  rw [show jsonL2 ++ r = 44 :: (strB "\"scheme\":" ++ r) from rfl,
    parseNatB_round n 44 (by decide) _]

theorem parseNatB_valueClose (n : Nat) (r : ByteStr) :
    parseNatB (natDigits n ++ (jsonValueClose ++ r)) = some (n, jsonValueClose ++ r) := by
  rw [show jsonValueClose ++ r = 34 :: (strB ",\"serializedTransaction\":" ++ r) from rfl,
    parseNatB_round n 34 (by decide) _]

theorem parseNatB_jsonEnd (n : Nat) :
    parseNatB (natDigits n ++ jsonEnd) = some (n, jsonEnd) := by
  rw [show (jsonEnd : ByteStr) = 125 :: strB "\x7d\x7d" from rfl,
    parseNatB_round n 125 (by decide) _]

/-- Round trip of the shared envelope prefix. -/
theorem parseEnvelope_round (ver : Nat) (scheme network sig key owner rest : ByteStr) :
    parseEnvelope (jsonL1 ++ (natDigits ver ++ (jsonL2 ++ (serializeStrB scheme ++
      (jsonL3 ++ (serializeStrB network ++ (jsonL4 ++ (serializeStrB sig ++
      (jsonKeyComma ++ (serializeStrB key ++ (jsonOwnerKey ++ (serializeStrB owner ++
      rest))))))))))))
    = some (ver, scheme, network, sig, key, owner, rest) := by
  unfold parseEnvelope
  repeat
    first
    | rw [parseLit_append]
    | rw [parseNatB_L2]
    | rw [parseQuoted_round]
    | simp only [doBindSome]

/-- Round trip of the `approval` variant tail. -/
theorem parseApprovalTail_round (ver : Nat) (scheme network sig o d ta tm : ByteStr)
    (v : Nat) (st bh : ByteStr) (hh : Nat) :
    parseApprovalTail ver scheme network sig o (jsonDelegateKey ++ (serializeStrB d ++
      (jsonTokenAccountKey ++ (serializeStrB ta ++ (jsonTokenMintKey ++
      (serializeStrB tm ++ (jsonValueKey ++ (natDigits v ++ (jsonValueClose ++
      (serializeStrB st ++ (jsonBlockhashKey ++ (serializeStrB bh ++ (jsonHeightKey ++
      (natDigits hh ++ jsonEnd))))))))))))))
    = some ⟨ver, scheme, network, .approval sig ⟨o, d, ta, tm, v, st, bh, hh⟩⟩ := by
  unfold parseApprovalTail
  repeat
    first
    | rw [parseLit_append]
    | rw [parseNatB_valueClose]
    | rw [parseNatB_jsonEnd]
    | rw [parseQuoted_round]
    | rw [parseLit_self]
    | simp only [doBindSome, List.isEmpty_nil, if_true]

/-- Round trip of the `transfer` variant tail. -/
theorem parseTransferTail_round (ver : Nat) (scheme network sig o d : ByteStr)
    (v : Nat) (st bh : ByteStr) (hh : Nat) :
    parseTransferTail ver scheme network sig o (jsonDestinationKey ++ (serializeStrB d ++
      (jsonValueKey ++ (natDigits v ++ (jsonValueClose ++ (serializeStrB st ++
      (jsonBlockhashKey ++ (serializeStrB bh ++ (jsonHeightKey ++
      (natDigits hh ++ jsonEnd))))))))))
    = some ⟨ver, scheme, network, .nativeTransfer sig ⟨o, d, v, st, bh, hh⟩⟩ := by
  unfold parseTransferTail
  repeat
    first
    | rw [parseLit_append]
    | rw [parseNatB_valueClose]
    | rw [parseNatB_jsonEnd]
    | rw [parseQuoted_round]
    | rw [parseLit_self]
    | simp only [doBindSome, List.isEmpty_nil, if_true]

/-- JSON-level round trip: parsing the emission returns the payload. -/
theorem parsePayment_serializePayment (p : PaymentPayload) :
    parsePayment (serializePayment p) = some p := by
  obtain ⟨ver, scheme, network, pl⟩ := p
  cases pl with
  | approval sig a =>
      obtain ⟨o, d, ta, tm, v, st, bh, hh⟩ := a
      simp only [serializePayment, serializeSchemeP]
      unfold parsePayment
      rw [parseEnvelope_round]
      simp only [doBindSome, if_true]
      rw [parseApprovalTail_round]
  | nativeTransfer sig t =>
      obtain ⟨o, d, v, st, bh, hh⟩ := t
      simp only [serializePayment, serializeSchemeP]
      unfold parsePayment
      rw [parseEnvelope_round]
      simp only [doBindSome, if_true]
      rw [if_neg (by decide)]
      rw [parseTransferTail_round]

theorem bytesWF_append {a b : ByteStr} (ha : bytesWF a) (hb : bytesWF b) :
    bytesWF (a ++ b) := by
  intro x hx
  rcases List.mem_append.mp hx with h | h
  · exact ha x h
  · exact hb x h

theorem bytesWF_strB (s : String) (h : ∀ c ∈ s.data, c.toNat < 256) : bytesWF (strB s) := by
  intro x hx
  unfold strB at hx
  simp only [List.mem_map] at hx
  obtain ⟨c, hc, rfl⟩ := hx
  exact h c hc

theorem bytesWF_natDigits (n : Nat) : bytesWF (natDigits n) := by
  intro x hx
  have := natDigits_all_digit n x hx
  unfold isDigitByte at this
  simp at this
  omega

theorem bytesWF_escapeB {s : ByteStr} (h : bytesWF s) : bytesWF (escapeB s) := by
  induction s with
  | nil => intro x hx; simp [escapeB] at hx
  | cons b t ih =>
      have hb : b < 256 := h b (by simp)
      have ht : bytesWF t := fun x hx => h x (by simp [hx])
      intro x hx
      unfold escapeB at hx
      by_cases hc : b = 34 ∨ b = 92
      · rw [if_pos hc] at hx
        simp only [List.mem_cons] at hx
        rcases hx with rfl | rfl | hx
        · omega
        · exact hb
        · exact ih ht x hx
      · rw [if_neg hc] at hx
        simp only [List.mem_cons] at hx
        rcases hx with rfl | hx
        · exact hb
        · exact ih ht x hx

theorem bytesWF_serializeStrB {s : ByteStr} (h : bytesWF s) :
    bytesWF (serializeStrB s) := by
  unfold serializeStrB
  intro x hx
  simp only [List.mem_cons, List.mem_append] at hx
  rcases hx with rfl | hx | hx
  · omega
  · exact bytesWF_escapeB h x hx
  · simp at hx; omega

theorem serializePayment_wf (p : PaymentPayload) (h : payloadWF p) :
    bytesWF (serializePayment p) := by
  obtain ⟨ver, scheme, network, pl⟩ := p
  unfold payloadWF at h
  cases pl with
  | approval sig a =>
      obtain ⟨o, d, ta, tm, v, st, bh, hh⟩ := a
      obtain ⟨hs, hn, hsig, ho, hd, hta, htm, hst, hbh⟩ := h
      unfold serializePayment serializeSchemeP
      repeat
        first
        | apply bytesWF_append
        | exact bytesWF_natDigits _
        | exact bytesWF_serializeStrB hs
        | exact bytesWF_serializeStrB hn
        | exact bytesWF_serializeStrB hsig
        | exact bytesWF_serializeStrB ho
        | exact bytesWF_serializeStrB hd
        | exact bytesWF_serializeStrB hta
        | exact bytesWF_serializeStrB htm
        | exact bytesWF_serializeStrB hst
        | exact bytesWF_serializeStrB hbh
        | decide
  | nativeTransfer sig t =>
      obtain ⟨o, d, v, st, bh, hh⟩ := t
      obtain ⟨hs, hn, hsig, ho, hd, hst, hbh⟩ := h
      unfold serializePayment serializeSchemeP
      repeat
        first
        | apply bytesWF_append
        | exact bytesWF_natDigits _
        | exact bytesWF_serializeStrB hs
        | exact bytesWF_serializeStrB hn
        | exact bytesWF_serializeStrB hsig
        | exact bytesWF_serializeStrB ho
        | exact bytesWF_serializeStrB hd
        | exact bytesWF_serializeStrB hst
        | exact bytesWF_serializeStrB hbh
        | decide

/-- Full wire round trip: base64 decode then JSON parse inverts encoding. -/
theorem decodePayment_encodePayment (p : PaymentPayload) (h : payloadWF p) :
    decodePayment (encodePayment p) = some p := by
  unfold decodePayment encodePayment
  rw [base64_decode_encode _ (serializePayment_wf p h), Option.some_bind,
    parsePayment_serializePayment]

/-! ## SVM gasless payment builders

Embedding of the gasless client source.  Each async builder is a pure
function over an `RpcEnv` (the values the RPC endpoints and wallet would
return) that also yields the ordered trace of network/signing effects it
performed before returning; a thrown `Error` is an `Except.error` carrying
the message. -/

/-- `QuoteResponse.data`: quote-derived payment parameters. -/
structure QuoteData where
  paymentAmount : Nat
  facilitatorAddress : ByteStr
  feePayerAddress : ByteStr
deriving DecidableEq

/-- Facilitator quote response envelope. -/
structure QuoteResponse where
  success : Bool
  data : Option QuoteData
deriving DecidableEq

/-- The scheme-specific `extra` object, restricted to the two fields the
SVM client reads; `none` models an absent/`undefined` field. -/
structure ExtraData where
  facilitatorAddress : Option ByteStr := none
  feePayer : Option ByteStr := none
deriving DecidableEq

/-- The payment-requirements fields the SVM client uses. -/
structure PaymentRequirements where
  scheme : ByteStr
  network : ByteStr
  asset : ByteStr
  payTo : ByteStr
  maxAmountRequired : Nat
  extra : Option ExtraData := none
deriving DecidableEq

/-- `paymentRequirements.extra?.facilitatorAddress`. -/
def extraFacilitator (r : PaymentRequirements) : Option ByteStr :=
  r.extra.bind ExtraData.facilitatorAddress

/-- `paymentRequirements.extra?.feePayer`. -/
def extraFeePayer (r : PaymentRequirements) : Option ByteStr :=
  r.extra.bind ExtraData.feePayer

/-- JavaScript string falsiness for an optional string: `undefined` or
the empty string. -/
def strFalsy : Option ByteStr → Bool
  | none => true
  | some s => s.isEmpty

def TOKEN_PROGRAM_ADDRESS : ByteStr :=
  strB "TokenkegQfeZyiNwAJbNbGKPFXCWuBvf9Ss623VQ5DA"

def TOKEN_2022_PROGRAM_ADDRESS : ByteStr :=
  strB "TokenzQdBNbLqP5VEhdkAS6EPFLC1PHnBqCXEpPxuEb"

/-- Native SOL sentinel address (also the system program id). -/
def NATIVE_SOL_ADDRESS : ByteStr := strB "11111111111111111111111111111111"

def SYSTEM_PROGRAM_ADDRESS : ByteStr := strB "11111111111111111111111111111111"

/-- Network / signing effects, recorded in the order performed. -/
inductive Effect where
  | fetchMint (asset : ByteStr)
  | fetchAccount (account : ByteStr)
  | getLatestBlockhash
  | sign
deriving DecidableEq

/-- Values the RPC endpoints and the wallet would return. -/
structure RpcEnv where
  mintProgramAddress : ByteStr
  ataExists : Bool
  blockhash : ByteStr
  lastValidBlockHeight : Nat
deriving DecidableEq

/-- The payer's signing capability: an address and the raw signature the
wallet attaches for it (`none` models a missing signature). -/
structure Signer where
  address : ByteStr
  signature : Option ByteStr
deriving DecidableEq

/-- An account reference in an instruction (address and role number). -/
structure AccountMeta where
  address : ByteStr
  role : Nat
deriving DecidableEq

/-- An instruction: the library-built token `approve` instruction
(modelled abstractly by its arguments) or a raw instruction as literally
constructed by the native-transfer source. -/
inductive Instruction where
  | approve (account delegate owner : ByteStr) (amount : Nat) (programAddress : ByteStr)
  | raw (programAddress : ByteStr) (accounts : List AccountMeta) (data : List Nat)
deriving DecidableEq

/-- A transaction message under construction. -/
structure TxMessage where
  version : Nat
  feePayer : Option ByteStr := none
  lifetimeBlockhash : Option ByteStr := none
  lifetimeLastValidBlockHeight : Option Nat := none
  instructions : List Instruction := []
deriving DecidableEq

def createTransactionMessage (version : Nat) : TxMessage := { version }

def setTransactionMessageFeePayer (feePayer : ByteStr) (tx : TxMessage) : TxMessage :=
  { tx with feePayer := some feePayer }

def setTransactionMessageLifetimeUsingBlockhash (blockhash : ByteStr) (height : Nat)
    (tx : TxMessage) : TxMessage :=
  { tx with
      lifetimeBlockhash := some blockhash
      lifetimeLastValidBlockHeight := some height }

def appendTransactionMessageInstruction (i : Instruction) (tx : TxMessage) : TxMessage :=
  { tx with instructions := tx.instructions ++ [i] }

/-- A partially signed transaction: message plus signatures by address. -/
structure PartialTx where
  message : TxMessage
  signatures : List (ByteStr × ByteStr)
deriving DecidableEq

/-- Modelled external library signing step: only the payer signs; the fee
payer's signature slot stays empty for the sponsor. -/
def partiallySignTransactionMessageWithSigners (client : Signer) (tx : TxMessage) :
    PartialTx :=
  { message := tx,
    signatures :=
      match client.signature with
      | none => []
      | some sg => [(client.address, sg)] }

/-- `signatures[address]` lookup. -/
def lookupSig (sigs : List (ByteStr × ByteStr)) (addr : ByteStr) : Option ByteStr :=
  (sigs.find? (fun p => decide (p.1 = addr))).map Prod.snd

/-- Modelled external wire serialization of a partially signed tx
(opaque to every claim; any deterministic function of its input works). -/
def getBase64EncodedWireTransaction (tx : PartialTx) : ByteStr :=
  strB "wire:" ++ tx.message.feePayer.getD [] ++ strB ";" ++
    tx.message.lifetimeBlockhash.getD [] ++ strB ";" ++
    (tx.signatures.map Prod.snd).flatten

/-- Modelled external base58 encoder (opaque tag model). -/
def base58encode (b : ByteStr) : ByteStr := strB "base58:" ++ b

/-- Modelled external associated-token-account derivation. -/
def findAssociatedTokenPda (mint owner tokenProgram : ByteStr) : ByteStr :=
  strB "ata:" ++ tokenProgram ++ strB ":" ++ mint ++ strB ":" ++ owner

/-- The library `getApproveInstruction` call (token-2022 API, explicit
`programAddress` override), modelled by the `approve` constructor. -/
def getApproveInstruction (account delegate owner : ByteStr) (amount : Nat)
    (programAddress : ByteStr) : Instruction :=
  .approve account delegate owner amount programAddress

/-- Little-endian byte encoding, `k` bytes wide. -/
def leBytes : Nat → Nat → List Nat
  | 0, _ => []
  | k + 1, v => v % 256 :: leBytes k (v / 256)

/-- The native transfer instruction data: `[2,0,0,0]` (little-endian u32
instruction index 2) followed by the lamports as a little-endian u64
(`DataView.setBigUint64` truncates modulo `2^64`). -/
def transferInstructionData (lamports : Nat) : List Nat :=
  [2, 0, 0, 0] ++ leBytes 8 (lamports % 2 ^ 64)

/-- The transaction-message pipe shared by both gasless builders:
version-0 message, fee payer set, blockhash lifetime, one instruction. -/
def gaslessTxMessage (feePayerAddress blockhash : ByteStr) (height : Nat)
    (i : Instruction) : TxMessage :=
  appendTransactionMessageInstruction i
    (setTransactionMessageLifetimeUsingBlockhash blockhash height
      (setTransactionMessageFeePayer feePayerAddress (createTransactionMessage 0)))

/-- A builder outcome: effect trace plus result or thrown error message. -/
abbrev BuildResult (α : Type) := List Effect × Except String α

/-- `createGaslessApprovalPayment` from the gasless client source. -/
def createGaslessApprovalPayment (client : Signer) (x402Version : Nat)
    (paymentRequirements : PaymentRequirements) (quoteResponse : QuoteResponse)
    (env : RpcEnv) : BuildResult PaymentPayload :=
  match quoteResponse.data with
  | none => ([], .error "Invalid quote response")
  | some qd =>
    if quoteResponse.success = false then ([], .error "Invalid quote response")
    else
      let tokenProgramAddress := env.mintProgramAddress
      let t1 : List Effect := [.fetchMint paymentRequirements.asset]
      if tokenProgramAddress ≠ TOKEN_PROGRAM_ADDRESS ∧
          tokenProgramAddress ≠ TOKEN_2022_PROGRAM_ADDRESS then
        (t1, .error "Asset was not created by a known token program")
      else
        let userTokenAccount :=
          findAssociatedTokenPda paymentRequirements.asset client.address
            tokenProgramAddress
        let t2 := t1 ++ [.fetchAccount userTokenAccount]
        if env.ataExists = false then
          (t2, .error "User does not have a token account for this asset")
        else
          let approvalInstruction :=
            getApproveInstruction userTokenAccount qd.facilitatorAddress
              client.address qd.paymentAmount tokenProgramAddress
          let t3 := t2 ++ [.getLatestBlockhash]
          let transactionMessage :=
            gaslessTxMessage qd.feePayerAddress env.blockhash env.lastValidBlockHeight
              approvalInstruction
          let t4 := t3 ++ [.sign]
          let partiallySignedTransaction :=
            partiallySignTransactionMessageWithSigners client transactionMessage
          let serializedTransaction :=
            getBase64EncodedWireTransaction partiallySignedTransaction
          match lookupSig partiallySignedTransaction.signatures client.address with
          | none => (t4, .error "Failed to get user's signature from transaction")
          | some userSignature =>
            (t4, .ok
              { x402Version := x402Version,
                scheme := paymentRequirements.scheme,
                network := paymentRequirements.network,
                payload := .approval (base58encode userSignature)
                  { owner := client.address,
                    delegate := qd.facilitatorAddress,
                    tokenAccount := userTokenAccount,
                    tokenMint := paymentRequirements.asset,
                    value := qd.paymentAmount,
                    serializedTransaction := serializedTransaction,
                    blockhash := env.blockhash,
                    lastValidBlockHeight := env.lastValidBlockHeight } })

/-- `createGaslessNativePayment` from the gasless client source. -/
def createGaslessNativePayment (client : Signer) (x402Version : Nat)
    (paymentRequirements : PaymentRequirements) (quoteResponse : QuoteResponse)
    (env : RpcEnv) : BuildResult PaymentPayload :=
  match quoteResponse.data with
  | none => ([], .error "Invalid quote response")
  | some qd =>
    if quoteResponse.success = false then ([], .error "Invalid quote response")
    else
      let transferInstruction : Instruction :=
        .raw SYSTEM_PROGRAM_ADDRESS
          [{ address := client.address, role := 0 },
           { address := qd.facilitatorAddress, role := 1 }]
          (transferInstructionData qd.paymentAmount)
      let t1 : List Effect := [.getLatestBlockhash]
      let transactionMessage :=
        gaslessTxMessage qd.feePayerAddress env.blockhash env.lastValidBlockHeight
          transferInstruction
      let t2 := t1 ++ [.sign]
      let partiallySignedTransaction :=
        partiallySignTransactionMessageWithSigners client transactionMessage
      let serializedTransaction :=
        getBase64EncodedWireTransaction partiallySignedTransaction
      match lookupSig partiallySignedTransaction.signatures client.address with
      | none => (t2, .error "Failed to get user's signature from transaction")
      | some userSignature =>
        (t2, .ok
          { x402Version := x402Version,
            scheme := paymentRequirements.scheme,
            network := paymentRequirements.network,
            payload := .nativeTransfer (base58encode userSignature)
              { owner := client.address,
                destination := qd.facilitatorAddress,
                value := qd.paymentAmount,
                serializedTransaction := serializedTransaction,
                blockhash := env.blockhash,
                lastValidBlockHeight := env.lastValidBlockHeight } })

/-- `createGaslessApprovalPaymentHeader`: build then encode. -/
def createGaslessApprovalPaymentHeader (client : Signer) (x402Version : Nat)
    (paymentRequirements : PaymentRequirements) (quoteResponse : QuoteResponse)
    (env : RpcEnv) : BuildResult ByteStr :=
  let r := createGaslessApprovalPayment client x402Version paymentRequirements
    quoteResponse env
  (r.1, Except.map encodePayment r.2)

/-- `createGaslessNativePaymentHeader`: build then encode. -/
def createGaslessNativePaymentHeader (client : Signer) (x402Version : Nat)
    (paymentRequirements : PaymentRequirements) (quoteResponse : QuoteResponse)
    (env : RpcEnv) : BuildResult ByteStr :=
  let r := createGaslessNativePayment client x402Version paymentRequirements
    quoteResponse env
  (r.1, Except.map encodePayment r.2)

/-- `createGaslessPaymentHeader`: asset-identity dispatch over the two
gasless sub-cases, after checking the quote-derived `feePayer`. -/
def createGaslessPaymentHeader (client : Signer) (x402Version : Nat)
    (paymentRequirements : PaymentRequirements) (facilitatorAddress : ByteStr)
    (env : RpcEnv) : BuildResult ByteStr :=
  let feePayerAddress := extraFeePayer paymentRequirements
  if strFalsy feePayerAddress then
    ([], .error
      "feePayer is required in paymentRequirements.extra for gasless transactions")
  else
    let quoteResponse : QuoteResponse :=
      { success := true,
        data := some
          { paymentAmount := paymentRequirements.maxAmountRequired,
            facilitatorAddress := facilitatorAddress,
            feePayerAddress := feePayerAddress.getD [] } }
    if paymentRequirements.asset = NATIVE_SOL_ADDRESS then
      createGaslessNativePaymentHeader client x402Version paymentRequirements
        quoteResponse env
    else
      createGaslessApprovalPaymentHeader client x402Version paymentRequirements
        quoteResponse env

/-- The SVM client error message when the facilitator address is absent. -/
def svmFacilitatorRequiredMsg : String :=
  "SVM requires facilitatorAddress in paymentRequirements.extra. The server must call /x402/quote to get this value. Only gasless transactions are supported for SVM."

/-- `createPaymentHeader`, the SVM entry point. -/
def createPaymentHeader (client : Signer) (x402Version : Nat)
    (paymentRequirements : PaymentRequirements) (env : RpcEnv) :
    BuildResult ByteStr :=
  let facilitatorAddress := extraFacilitator paymentRequirements
  if strFalsy facilitatorAddress then
    ([], .error svmFacilitatorRequiredMsg)
  else
    createGaslessPaymentHeader client x402Version paymentRequirements
      (facilitatorAddress.getD []) env

/-! ## Facilitator quote client (from the quote source) -/

/-- The JSON body of the quote request. -/
structure QuoteRequest where
  srcTokenAddress : String
  srcNetwork : String
  dstTokenAddress : String
  dstNetwork : String
  dstAmount : String
deriving DecidableEq

/-- The HTTP request handed to `fetch`. -/
structure HttpRequest where
  url : String
  method : String
  contentType : String
  body : QuoteRequest
deriving DecidableEq

/-- Is an HTTP status in the 2xx range (the `fetch` definition of `ok`)? -/
def respOk (status : Nat) : Bool := decide (200 ≤ status) && decide (status < 300)

/-- What `fetch` comes back with: a rejected promise (transport failure)
or a settled response with its status, text, and JSON parse. -/
inductive FetchOutcome where
  | transportFailure (message : String)
  | response (status : Nat) (bodyText : String) (bodyJson : Option QuoteResponse)
deriving DecidableEq

/-- The JavaScript exception surfaced by `getPaymentQuote`: the propagated
`fetch` rejection (transport), the `Error` built for a non-2xx response,
or the JSON parse failure of the response body.  Distinct constructors
model distinct exception values. -/
inductive QuoteClientError where
  | fetchRejection (message : String)
  | quoteRejection (status : Nat) (errorText : String)
  | jsonParseFailure
deriving DecidableEq

/-- Classify the settled `fetch` outcome exactly as the source does: a
rejected promise propagates unchanged; a non-2xx response becomes the
"Failed to get payment quote" `Error`; a 2xx response is JSON-parsed. -/
def classifyQuoteOutcome : FetchOutcome → Except QuoteClientError QuoteResponse
  | .transportFailure msg => .error (.fetchRejection msg)
  | .response status bodyText bodyJson =>
    if respOk status = false then .error (.quoteRejection status bodyText)
    else
      match bodyJson with
      | none => .error .jsonParseFailure
      | some data => .ok data

/-- `getPaymentQuote` from the quote source: builds the POST to
`facilitatorUrl ++ "/x402/quote"`, performs it through the network oracle
`net` (standing for `fetch`), and classifies the outcome. -/
def getPaymentQuote (srcTokenAddress srcNetwork dstTokenAddress dstNetwork
    dstAmount facilitatorUrl : String) (net : HttpRequest → FetchOutcome) :
    HttpRequest × Except QuoteClientError QuoteResponse :=
  let request : QuoteRequest :=
    { srcTokenAddress := srcTokenAddress, srcNetwork := srcNetwork,
      dstTokenAddress := dstTokenAddress, dstNetwork := dstNetwork,
      dstAmount := dstAmount }
  let httpRequest : HttpRequest :=
    { url := facilitatorUrl ++ "/x402/quote", method := "POST",
      contentType := "application/json", body := request }
  (httpRequest, classifyQuoteOutcome (net httpRequest))

/-! ## Resource-server protocol core

Modelled from the spec: the resource-server core (402 challenge, header
decoding, matching-requirement lookup, verify, resource release, settle)
is not part of the shown corpus; the model follows the spec's algorithm
for the protocol core and its ordering contract (verify strictly before
resource release strictly before settle; on verify failure no serve, no
settle). -/

/-- The observable operations of one request lifecycle, in order. -/
inductive ServerEvent where
  | verifyCall
  | serveResource
  | settleCall
deriving DecidableEq

/-- The facilitator's behavior for this request. -/
structure FacilitatorModel where
  verifyOk : Bool
  settleOk : Bool
deriving DecidableEq

/-- The outward response category. -/
inductive ServerResponse where
  | challenge402
  | malformedHeader
  | noMatchingRequirement
  | verificationFailed
  | served (settleOk : Bool)
deriving DecidableEq

/-- Look up the accepted offer matching the payload's scheme and network. -/
def findRequirement (accepts : List PaymentRequirements) (p : PaymentPayload) :
    Option PaymentRequirements :=
  accepts.find? (fun r => decide (r.scheme = p.scheme ∧ r.network = p.network))

/-- Modelled from the spec: one request through the resource-server core,
returning the ordered event trace and the response. -/
def handleRequest (accepts : List PaymentRequirements) (header : Option ByteStr)
    (fac : FacilitatorModel) : List ServerEvent × ServerResponse :=
  match header with
  | none => ([], .challenge402)
  | some h =>
    match decodePayment h with
    | none => ([], .malformedHeader)
    | some p =>
      match findRequirement accepts p with
      | none => ([], .noMatchingRequirement)
      | some _ =>
        if fac.verifyOk then
          ([.verifyCall, .serveResource, .settleCall], .served fac.settleOk)
        else
          ([.verifyCall], .verificationFailed)

/-! ## Helper lemmas about the builders -/

theorem tokenPrograms_distinct :
    TOKEN_2022_PROGRAM_ADDRESS ≠ TOKEN_PROGRAM_ADDRESS := by decide

/-- Success shape of the approval builder. -/
theorem createGaslessApprovalPayment_success (client : Signer) (x : Nat)
    (req : PaymentRequirements) (qd : QuoteData) (env : RpcEnv) (sg : ByteStr)
    (hprog : env.mintProgramAddress = TOKEN_PROGRAM_ADDRESS ∨
      env.mintProgramAddress = TOKEN_2022_PROGRAM_ADDRESS)
    (hata : env.ataExists = true)
    (hsig : client.signature = some sg) :
    createGaslessApprovalPayment client x req ⟨true, some qd⟩ env =
      ([.fetchMint req.asset,
        .fetchAccount (findAssociatedTokenPda req.asset client.address env.mintProgramAddress),
        .getLatestBlockhash, .sign],
       .ok { x402Version := x, scheme := req.scheme, network := req.network,
             payload := .approval (base58encode sg)
               { owner := client.address,
                 delegate := qd.facilitatorAddress,
                 tokenAccount := findAssociatedTokenPda req.asset client.address
                   env.mintProgramAddress,
                 tokenMint := req.asset,
                 value := qd.paymentAmount,
                 serializedTransaction := getBase64EncodedWireTransaction
                   (partiallySignTransactionMessageWithSigners client
                     (gaslessTxMessage qd.feePayerAddress env.blockhash
                       env.lastValidBlockHeight
                       (getApproveInstruction
                         (findAssociatedTokenPda req.asset client.address
                           env.mintProgramAddress)
                         qd.facilitatorAddress client.address qd.paymentAmount
                         env.mintProgramAddress))),
                 blockhash := env.blockhash,
                 lastValidBlockHeight := env.lastValidBlockHeight } }) := by
  have hneg : ¬(env.mintProgramAddress ≠ TOKEN_PROGRAM_ADDRESS ∧
      env.mintProgramAddress ≠ TOKEN_2022_PROGRAM_ADDRESS) := by
    rcases hprog with h | h <;> simp [h]
  unfold createGaslessApprovalPayment
  simp only [hata, hsig, if_neg hneg, partiallySignTransactionMessageWithSigners,
    lookupSig, List.find?, decide_eq_true_eq]
  simp [lookupSig, List.find?]

/-- Success shape of the native builder. -/
theorem createGaslessNativePayment_success (client : Signer) (x : Nat)
    (req : PaymentRequirements) (qd : QuoteData) (env : RpcEnv) (sg : ByteStr)
    (hsig : client.signature = some sg) :
    createGaslessNativePayment client x req ⟨true, some qd⟩ env =
      ([.getLatestBlockhash, .sign],
       .ok { x402Version := x, scheme := req.scheme, network := req.network,
             payload := .nativeTransfer (base58encode sg)
               { owner := client.address,
                 destination := qd.facilitatorAddress,
                 value := qd.paymentAmount,
                 serializedTransaction := getBase64EncodedWireTransaction
                   (partiallySignTransactionMessageWithSigners client
                     (gaslessTxMessage qd.feePayerAddress env.blockhash
                       env.lastValidBlockHeight
                       (.raw SYSTEM_PROGRAM_ADDRESS
                         [{ address := client.address, role := 0 },
                          { address := qd.facilitatorAddress, role := 1 }]
                         (transferInstructionData qd.paymentAmount)))),
                 blockhash := env.blockhash,
                 lastValidBlockHeight := env.lastValidBlockHeight } }) := by
  unfold createGaslessNativePayment
  simp only [hsig, partiallySignTransactionMessageWithSigners, lookupSig, List.find?,
    decide_eq_true_eq]
  simp [lookupSig, List.find?]

/-- The gasless message pipe sets exactly the fee payer, lifetime, and the
single instruction. -/
theorem gaslessTxMessage_fields (fp bh : ByteStr) (h : Nat) (i : Instruction) :
    (gaslessTxMessage fp bh h i).feePayer = some fp ∧
    (gaslessTxMessage fp bh h i).instructions = [i] ∧
    (gaslessTxMessage fp bh h i).lifetimeBlockhash = some bh ∧
    (gaslessTxMessage fp bh h i).version = 0 := by
  simp [gaslessTxMessage, appendTransactionMessageInstruction,
    setTransactionMessageLifetimeUsingBlockhash, setTransactionMessageFeePayer,
    createTransactionMessage]

/-- Shape of any successfully built approval payload: it is an `approval`
variant whose delegate and value come from the quote. -/
theorem createGaslessApprovalPayment_ok_shape (client : Signer) (x : Nat)
    (req : PaymentRequirements) (qd : QuoteData) (env : RpcEnv) (p : PaymentPayload)
    (hp : (createGaslessApprovalPayment client x req ⟨true, some qd⟩ env).2 = .ok p) :
    ∃ s a, p.payload = .approval s a ∧ a.delegate = qd.facilitatorAddress ∧
      a.value = qd.paymentAmount ∧ a.owner = client.address := by
  unfold createGaslessApprovalPayment at hp
  simp only [Bool.true_eq_false, if_false] at hp
  split at hp
  · simp at hp
  · split at hp
    · simp at hp
    · split at hp
      · simp at hp
      · simp only [Except.ok.injEq] at hp
        subst hp
        exact ⟨_, _, rfl, rfl, rfl, rfl⟩

/-! ## Claim theorems -/

/-- C1: For every call to the SVM gasless payload-building entry points
(`createPaymentHeader`, `createGaslessPaymentHeader`) in which the
quote-derived data (`facilitatorAddress` resp. `feePayer`) is absent from
`paymentRequirements.extra`, the call fails with a dedicated error before
any network or signing activity (empty effect trace), and no payment
payload or header is produced. -/
theorem claim_C1_missing_quote_data_fails_early (client : Signer) (x : Nat)
    (req : PaymentRequirements) (fac : ByteStr) (env : RpcEnv) :
    (extraFacilitator req = none →
      createPaymentHeader client x req env =
        ([], .error svmFacilitatorRequiredMsg)) ∧
    (extraFeePayer req = none →
      createGaslessPaymentHeader client x req fac env =
        ([], .error
          "feePayer is required in paymentRequirements.extra for gasless transactions")) ∧
    (∀ f, extraFacilitator req = some f → f ≠ [] → extraFeePayer req = none →
      createPaymentHeader client x req env =
        ([], .error
          "feePayer is required in paymentRequirements.extra for gasless transactions")) := by
  refine ⟨?_, ?_, ?_⟩
  · intro h
    simp [createPaymentHeader, h, strFalsy]
  · intro h
    simp [createGaslessPaymentHeader, h, strFalsy]
  · intro f hf hne hfee
    simp [createPaymentHeader, hf, strFalsy, List.isEmpty_eq_true, hne,
      createGaslessPaymentHeader, hfee]

/-- C9: `createGaslessApprovalPayment` and `createGaslessNativePayment`
throw "Invalid quote response" whenever `success` is false or `data` is
absent, before any RPC call or signing (empty effect trace); every payload
either produces comes from a quote with `success = true` and data
present. -/
theorem claim_C9_invalid_quote_guard (client : Signer) (x : Nat)
    (req : PaymentRequirements) (quote : QuoteResponse) (env : RpcEnv) :
    ((quote.success = false ∨ quote.data = none) →
      createGaslessApprovalPayment client x req quote env =
          ([], .error "Invalid quote response") ∧
        createGaslessNativePayment client x req quote env =
          ([], .error "Invalid quote response")) ∧
    (∀ p, (createGaslessApprovalPayment client x req quote env).2 = .ok p →
      quote.success = true ∧ quote.data ≠ none) ∧
    (∀ p, (createGaslessNativePayment client x req quote env).2 = .ok p →
      quote.success = true ∧ quote.data ≠ none) := by
  obtain ⟨success, data⟩ := quote
  cases data with
  | none =>
      refine ⟨fun _ => ⟨rfl, rfl⟩, ?_, ?_⟩ <;> intro p hp <;>
        simp [createGaslessApprovalPayment, createGaslessNativePayment] at hp
  | some qd =>
      cases success with
      | false =>
          refine ⟨fun _ => ⟨rfl, rfl⟩, ?_, ?_⟩ <;> intro p hp <;>
            simp [createGaslessApprovalPayment, createGaslessNativePayment] at hp
      | true =>
          refine ⟨fun hc => ?_, ?_, ?_⟩
          · rcases hc with hc | hc <;> simp at hc
          · intro p _
            exact ⟨rfl, by simp⟩
          · intro p _
            exact ⟨rfl, by simp⟩

/-- C2: every successful `createGaslessApprovalPayment` grants the
facilitator delegate rights over exactly the quote's `paymentAmount`: the
approve instruction uses `delegate = facilitatorAddress` and
`amount = paymentAmount`, the returned payload's `delegate` and `value`
carry the same values, and the fee-payer slot of the partially signed
transaction is left for the sponsor (only the payer has signed). -/
theorem claim_C2_approval_exact_amount (client : Signer) (x : Nat)
    (req : PaymentRequirements) (qd : QuoteData) (env : RpcEnv) (sg : ByteStr)
    (hprog : env.mintProgramAddress = TOKEN_PROGRAM_ADDRESS ∨
      env.mintProgramAddress = TOKEN_2022_PROGRAM_ADDRESS)
    (hata : env.ataExists = true)
    (hsig : client.signature = some sg) :
    createGaslessApprovalPayment client x req ⟨true, some qd⟩ env =
      ([.fetchMint req.asset,
        .fetchAccount (findAssociatedTokenPda req.asset client.address
          env.mintProgramAddress),
        .getLatestBlockhash, .sign],
       .ok { x402Version := x, scheme := req.scheme, network := req.network,
             payload := .approval (base58encode sg)
               { owner := client.address,
                 delegate := qd.facilitatorAddress,
                 tokenAccount := findAssociatedTokenPda req.asset client.address
                   env.mintProgramAddress,
                 tokenMint := req.asset,
                 value := qd.paymentAmount,
                 serializedTransaction := getBase64EncodedWireTransaction
                   (partiallySignTransactionMessageWithSigners client
                     (gaslessTxMessage qd.feePayerAddress env.blockhash
                       env.lastValidBlockHeight
                       (getApproveInstruction
                         (findAssociatedTokenPda req.asset client.address
                           env.mintProgramAddress)
                         qd.facilitatorAddress client.address qd.paymentAmount
                         env.mintProgramAddress))),
                 blockhash := env.blockhash,
                 lastValidBlockHeight := env.lastValidBlockHeight } }) ∧
    getApproveInstruction
        (findAssociatedTokenPda req.asset client.address env.mintProgramAddress)
        qd.facilitatorAddress client.address qd.paymentAmount
        env.mintProgramAddress =
      .approve (findAssociatedTokenPda req.asset client.address env.mintProgramAddress)
        qd.facilitatorAddress client.address qd.paymentAmount
        env.mintProgramAddress ∧
    (gaslessTxMessage qd.feePayerAddress env.blockhash env.lastValidBlockHeight
        (getApproveInstruction
          (findAssociatedTokenPda req.asset client.address env.mintProgramAddress)
          qd.facilitatorAddress client.address qd.paymentAmount
          env.mintProgramAddress)).feePayer = some qd.feePayerAddress ∧
    (partiallySignTransactionMessageWithSigners client
        (gaslessTxMessage qd.feePayerAddress env.blockhash env.lastValidBlockHeight
          (getApproveInstruction
            (findAssociatedTokenPda req.asset client.address env.mintProgramAddress)
            qd.facilitatorAddress client.address qd.paymentAmount
            env.mintProgramAddress))).signatures = [(client.address, sg)] := by
  refine ⟨createGaslessApprovalPayment_success client x req qd env sg hprog hata hsig,
    rfl, (gaslessTxMessage_fields _ _ _ _).1, ?_⟩
  simp [partiallySignTransactionMessageWithSigners, hsig]

/-- C3: `createGaslessPaymentHeader` selects its sub-case by asset
identity: for the native-SOL address it builds a direct native transfer of
`paymentAmount` lamports from the payer to `facilitatorAddress` with the
fee-payer slot set to the quote's `feePayer`, and for any other asset it
builds a delegated-spend approval. -/
theorem claim_C3_asset_identity_dispatch (client : Signer) (x : Nat)
    (req : PaymentRequirements) (fac fp : ByteStr) (env : RpcEnv) (sg : ByteStr)
    (hfp : extraFeePayer req = some fp) (hfpne : fp ≠ [])
    (hsig : client.signature = some sg) :
    (req.asset = NATIVE_SOL_ADDRESS →
      createGaslessPaymentHeader client x req fac env =
        ([.getLatestBlockhash, .sign],
         .ok (encodePayment
           { x402Version := x, scheme := req.scheme, network := req.network,
             payload := .nativeTransfer (base58encode sg)
               { owner := client.address,
                 destination := fac,
                 value := req.maxAmountRequired,
                 serializedTransaction := getBase64EncodedWireTransaction
                   (partiallySignTransactionMessageWithSigners client
                     (gaslessTxMessage fp env.blockhash env.lastValidBlockHeight
                       (.raw SYSTEM_PROGRAM_ADDRESS
                         [{ address := client.address, role := 0 },
                          { address := fac, role := 1 }]
                         (transferInstructionData req.maxAmountRequired)))),
                 blockhash := env.blockhash,
                 lastValidBlockHeight := env.lastValidBlockHeight } }))) ∧
    (req.asset ≠ NATIVE_SOL_ADDRESS →
      createGaslessPaymentHeader client x req fac env =
        createGaslessApprovalPaymentHeader client x req
          ⟨true, some ⟨req.maxAmountRequired, fac, fp⟩⟩ env ∧
      ∀ p, (createGaslessApprovalPayment client x req
          ⟨true, some ⟨req.maxAmountRequired, fac, fp⟩⟩ env).2 = .ok p →
        ∃ s a, p.payload = .approval s a ∧ a.delegate = fac ∧
          a.value = req.maxAmountRequired) := by
  have hfalsy : strFalsy (some fp) = false := by
    simpa [strFalsy, List.isEmpty_eq_true] using hfpne
  constructor
  · intro hasset
    rw [show createGaslessPaymentHeader client x req fac env =
        createGaslessNativePaymentHeader client x req
          ⟨true, some ⟨req.maxAmountRequired, fac, fp⟩⟩ env from by
      simp [createGaslessPaymentHeader, hfalsy, hasset, hfp]]
    rw [show createGaslessNativePaymentHeader client x req
        ⟨true, some ⟨req.maxAmountRequired, fac, fp⟩⟩ env =
        (_, _) from rfl]
    rw [createGaslessNativePayment_success client x req
      ⟨req.maxAmountRequired, fac, fp⟩ env sg hsig]
    rfl
  · intro hasset
    constructor
    · simp [createGaslessPaymentHeader, hfalsy, hasset, hfp]
    · intro p hp
      obtain ⟨s, a, hpl, hdel, hval, _⟩ :=
        createGaslessApprovalPayment_ok_shape client x req
          ⟨req.maxAmountRequired, fac, fp⟩ env p hp
      exact ⟨s, a, hpl, hdel, hval⟩

theorem leBytes_length : ∀ k v : Nat, (leBytes k v).length = k
  | 0, _ => rfl
  | k + 1, v => by simp [leBytes, leBytes_length k]

/-- C4 fixtures: a run of the native builder against an asset whose mint
is owned by neither known token program. -/
def c4Client : Signer := { address := strB "Payer", signature := some (strB "sg") }

def c4Req : PaymentRequirements :=
  { scheme := strB "exact", network := strB "solana",
    asset := strB "RandomAssetMint", payTo := strB "seller",
    maxAmountRequired := 5, extra := none }

def c4Qd : QuoteData :=
  { paymentAmount := 500000, facilitatorAddress := strB "Facil",
    feePayerAddress := strB "FeePayer" }

def c4Env : RpcEnv :=
  { mintProgramAddress := strB "NotATokenProgram", ataExists := true,
    blockhash := strB "bh", lastValidBlockHeight := 9 }

/-- C4 counterexample: the native-transfer sub-case performs no
token-program resolution and succeeds even when the asset's mint is owned
by neither known token program, contradicting the claim that both
sub-cases resolve the owning program and fail otherwise. -/
theorem claim_C4_counterexample :
    (c4Env.mintProgramAddress ≠ TOKEN_PROGRAM_ADDRESS ∧
      c4Env.mintProgramAddress ≠ TOKEN_2022_PROGRAM_ADDRESS) ∧
    (createGaslessNativePayment c4Client 1 c4Req ⟨true, some c4Qd⟩ c4Env).1 =
      [.getLatestBlockhash, .sign] ∧
    (createGaslessNativePayment c4Client 1 c4Req ⟨true, some c4Qd⟩ c4Env).2.isOk
      = true := by
  refine ⟨by decide, by decide, by decide⟩

/-- C4 (amended): only the delegated-spend sub-case resolves the token's
owning program — it does so before any account fetch, blockhash fetch or
signing, and fails with the unknown-token-program error when the asset is
owned by neither Token nor Token-2022; the native-transfer sub-case
targets the system program directly and performs no token-program
resolution at all. -/
theorem claim_C4_amended (client : Signer) (x : Nat)
    (req : PaymentRequirements) (qd : QuoteData) (env : RpcEnv) :
    (env.mintProgramAddress ≠ TOKEN_PROGRAM_ADDRESS →
     env.mintProgramAddress ≠ TOKEN_2022_PROGRAM_ADDRESS →
      createGaslessApprovalPayment client x req ⟨true, some qd⟩ env =
        ([.fetchMint req.asset],
         .error "Asset was not created by a known token program")) ∧
    (createGaslessApprovalPayment client x req ⟨true, some qd⟩ env).1.head? =
      some (.fetchMint req.asset) ∧
    (∀ a, Effect.fetchMint a ∉
      (createGaslessNativePayment client x req ⟨true, some qd⟩ env).1) := by
  refine ⟨?_, ?_, ?_⟩
  · intro h1 h2
    unfold createGaslessApprovalPayment
    simp only [Bool.true_eq_false, if_false]
    rw [if_pos ⟨h1, h2⟩]
  · unfold createGaslessApprovalPayment
    simp only [Bool.true_eq_false, if_false]
    split
    · rfl
    · split
      · rfl
      · split
        · rfl
        · rfl
  · intro a
    unfold createGaslessNativePayment
    simp only [Bool.true_eq_false, if_false]
    split
    · simp
    · simp

/-- C5: for every code path of the resource-server core, the resource is
served only if verify succeeded; the events of one request occur in the
strict order verify, then resource release, then settle; on verify
failure the resource is never served and settle is never invoked. -/
theorem claim_C5_verify_serve_settle_order (accepts : List PaymentRequirements)
    (header : Option ByteStr) (fac : FacilitatorModel) :
    ((handleRequest accepts header fac).1 = [] ∨
     (handleRequest accepts header fac).1 = [.verifyCall] ∨
     (handleRequest accepts header fac).1 =
       [.verifyCall, .serveResource, .settleCall]) ∧
    (ServerEvent.serveResource ∈ (handleRequest accepts header fac).1 →
      fac.verifyOk = true) ∧
    (∀ b, (handleRequest accepts header fac).2 = .served b →
      fac.verifyOk = true) ∧
    (fac.verifyOk = false →
      ServerEvent.serveResource ∉ (handleRequest accepts header fac).1 ∧
      ServerEvent.settleCall ∉ (handleRequest accepts header fac).1) := by
  unfold handleRequest
  cases header with
  | none => simp
  | some h =>
      cases hdec : decodePayment h with
      | none => simp [hdec]
      | some p =>
          cases hfind : findRequirement accepts p with
          | none => simp [hdec, hfind]
          | some r =>
              cases hv : fac.verifyOk <;> simp [hdec, hfind, hv]

/-- C6: for every scheme's payload shape, decoding the wire encoding of a
`PaymentPayload` returns the original payload, where the encoding is
base64 of the JSON-encoded payload as carried in the `X-PAYMENT`
header. -/
theorem claim_C6_wire_round_trip (p : PaymentPayload) (h : payloadWF p) :
    decodePayment (encodePayment p) = some p :=
  decodePayment_encodePayment p h

/-- C10: every native-transfer instruction carries exactly 12 data bytes:
a little-endian u32 equal to 2 (the system-program Transfer index)
followed by the payment amount as a little-endian u64; it targets the
system program with the payer's address first and the facilitator's
address second. -/
theorem claim_C10_native_instruction_bytes (client : Signer) (x : Nat)
    (req : PaymentRequirements) (qd : QuoteData) (env : RpcEnv) (sg : ByteStr)
    (hsig : client.signature = some sg) (h64 : qd.paymentAmount < 2 ^ 64) :
    createGaslessNativePayment client x req ⟨true, some qd⟩ env =
      ([.getLatestBlockhash, .sign],
       .ok { x402Version := x, scheme := req.scheme, network := req.network,
             payload := .nativeTransfer (base58encode sg)
               { owner := client.address,
                 destination := qd.facilitatorAddress,
                 value := qd.paymentAmount,
                 serializedTransaction := getBase64EncodedWireTransaction
                   (partiallySignTransactionMessageWithSigners client
                     (gaslessTxMessage qd.feePayerAddress env.blockhash
                       env.lastValidBlockHeight
                       (.raw SYSTEM_PROGRAM_ADDRESS
                         [{ address := client.address, role := 0 },
                          { address := qd.facilitatorAddress, role := 1 }]
                         ([2, 0, 0, 0] ++ leBytes 8 qd.paymentAmount)))),
                 blockhash := env.blockhash,
                 lastValidBlockHeight := env.lastValidBlockHeight } }) ∧
    ([2, 0, 0, 0] ++ leBytes 8 qd.paymentAmount).length = 12 ∧
    leBytes 4 2 = [2, 0, 0, 0] ∧
    SYSTEM_PROGRAM_ADDRESS = strB "11111111111111111111111111111111" := by
  have hmod : qd.paymentAmount % 2 ^ 64 = qd.paymentAmount := Nat.mod_eq_of_lt h64
  refine ⟨?_, ?_, by decide, rfl⟩
  · rw [createGaslessNativePayment_success client x req qd env sg hsig]
    simp only [transferInstructionData]
    rw [show qd.paymentAmount % 2 ^ 64 = qd.paymentAmount from hmod]
  · simp [leBytes_length]

/-- C7 counterexample network oracle. -/
def cexNet : HttpRequest → FetchOutcome :=
  fun _ => .transportFailure "connection refused"

/-- C7 counterexample: the quote request goes to the `/x402/quote` path,
not to `/quote` as the claim states. -/
theorem claim_C7_counterexample :
    (getPaymentQuote "src" "solana" "dst" "base" "1000000"
        "https://facilitator.example" cexNet).1.url ≠
      "https://facilitator.example" ++ "/quote" := by decide

/-- C7 (amended): the quote operation is a POST to the facilitator's
`/x402/quote` path carrying the JSON `QuoteRequest` with the five source
and destination fields, and on a 2xx response it returns the parsed
response body as the `QuoteResponse`. -/
theorem claim_C7_amended (src srcN dst dstN amt url : String)
    (net : HttpRequest → FetchOutcome) :
    (getPaymentQuote src srcN dst dstN amt url net).1.method = "POST" ∧
    (getPaymentQuote src srcN dst dstN amt url net).1.url =
      url ++ "/x402/quote" ∧
    (getPaymentQuote src srcN dst dstN amt url net).1.contentType =
      "application/json" ∧
    (getPaymentQuote src srcN dst dstN amt url net).1.body =
      { srcTokenAddress := src, srcNetwork := srcN, dstTokenAddress := dst,
        dstNetwork := dstN, dstAmount := amt } ∧
    (∀ status text j,
      net (getPaymentQuote src srcN dst dstN amt url net).1 =
        .response status text (some j) →
      respOk status = true →
      (getPaymentQuote src srcN dst dstN amt url net).2 = .ok j) := by
  refine ⟨rfl, rfl, rfl, rfl, ?_⟩
  intro status text j hnet hok
  have h2 : (getPaymentQuote src srcN dst dstN amt url net).2 =
      classifyQuoteOutcome
        (net (getPaymentQuote src srcN dst dstN amt url net).1) := rfl
  rw [h2, hnet]
  simp [classifyQuoteOutcome, hok]

/-- C8: a transport failure is surfaced as an outcome distinct from a
protocol-level rejection (non-2xx with error text); the two failure kinds
are never conflated into the same error outcome. -/
theorem claim_C8_transport_vs_protocol (src srcN dst dstN amt url : String)
    (net : HttpRequest → FetchOutcome) :
    (∀ msg, net (getPaymentQuote src srcN dst dstN amt url net).1 =
        .transportFailure msg →
      (getPaymentQuote src srcN dst dstN amt url net).2 =
        .error (.fetchRejection msg)) ∧
    (∀ status text j,
      net (getPaymentQuote src srcN dst dstN amt url net).1 =
        .response status text j →
      respOk status = false →
      (getPaymentQuote src srcN dst dstN amt url net).2 =
        .error (.quoteRejection status text)) ∧
    (∀ m s t, QuoteClientError.fetchRejection m ≠ .quoteRejection s t) := by
  have h2 : (getPaymentQuote src srcN dst dstN amt url net).2 =
      classifyQuoteOutcome
        (net (getPaymentQuote src srcN dst dstN amt url net).1) := rfl
  refine ⟨?_, ?_, fun m s t h => by cases h⟩
  · intro msg hnet
    rw [h2, hnet]
    rfl
  · intro status text j hnet hbad
    rw [h2, hnet]
    simp [classifyQuoteOutcome, hbad]

/-! ## Concrete witnesses -/

def wClient : Signer := { address := strB "Payer", signature := some (strB "sg") }

def wEnv : RpcEnv :=
  { mintProgramAddress := TOKEN_PROGRAM_ADDRESS, ataExists := true,
    blockhash := strB "bh", lastValidBlockHeight := 7 }

def wQd : QuoteData :=
  { paymentAmount := 500000, facilitatorAddress := strB "Facil",
    feePayerAddress := strB "Fee" }

def wReqNoExtra : PaymentRequirements :=
  { scheme := strB "exact", network := strB "solana", asset := strB "Mint1",
    payTo := strB "seller", maxAmountRequired := 1000, extra := none }

def wReqFee : PaymentRequirements :=
  { wReqNoExtra with
      extra := some
        { facilitatorAddress := some (strB "Facil"), feePayer := some (strB "Fee") } }

def wPayload : PaymentPayload :=
  { x402Version := 1, scheme := strB "exact", network := strB "solana",
    payload := .nativeTransfer (strB "s")
      { owner := strB "o", destination := strB "d", value := 5,
        serializedTransaction := strB "tx", blockhash := strB "b",
        lastValidBlockHeight := 2 } }

def wOkNet : HttpRequest → FetchOutcome :=
  fun _ => .response 200 "" (some ⟨true, some wQd⟩)

theorem claim_C1_witness :
    extraFacilitator wReqNoExtra = none ∧
    createPaymentHeader wClient 1 wReqNoExtra wEnv =
      ([], .error svmFacilitatorRequiredMsg) :=
  ⟨rfl,
    (claim_C1_missing_quote_data_fails_early wClient 1 wReqNoExtra [] wEnv).1 rfl⟩

theorem claim_C9_witness :
    (⟨false, some wQd⟩ : QuoteResponse).success = false ∧
    createGaslessApprovalPayment wClient 1 wReqFee ⟨false, some wQd⟩ wEnv =
      ([], .error "Invalid quote response") :=
  ⟨rfl,
    ((claim_C9_invalid_quote_guard wClient 1 wReqFee ⟨false, some wQd⟩ wEnv).1
      (Or.inl rfl)).1⟩

theorem claim_C2_witness :
    wEnv.mintProgramAddress = TOKEN_PROGRAM_ADDRESS ∧
    wEnv.ataExists = true ∧
    wClient.signature = some (strB "sg") ∧
    (gaslessTxMessage wQd.feePayerAddress wEnv.blockhash wEnv.lastValidBlockHeight
        (getApproveInstruction
          (findAssociatedTokenPda wReqFee.asset wClient.address
            wEnv.mintProgramAddress)
          wQd.facilitatorAddress wClient.address wQd.paymentAmount
          wEnv.mintProgramAddress)).feePayer = some wQd.feePayerAddress :=
  ⟨rfl, rfl, rfl,
    (claim_C2_approval_exact_amount wClient 1 wReqFee wQd wEnv (strB "sg")
      (Or.inl rfl) rfl rfl).2.2.1⟩

theorem claim_C3_witness :
    extraFeePayer wReqFee = some (strB "Fee") ∧
    wReqFee.asset ≠ NATIVE_SOL_ADDRESS ∧
    createGaslessPaymentHeader wClient 1 wReqFee (strB "Facil") wEnv =
      createGaslessApprovalPaymentHeader wClient 1 wReqFee
        ⟨true, some ⟨wReqFee.maxAmountRequired, strB "Facil", strB "Fee"⟩⟩ wEnv :=
  ⟨rfl, by decide,
    ((claim_C3_asset_identity_dispatch wClient 1 wReqFee (strB "Facil") (strB "Fee")
      wEnv (strB "sg") rfl (by decide) rfl).2 (by decide)).1⟩

theorem claim_C4_amended_witness :
    c4Env.mintProgramAddress ≠ TOKEN_PROGRAM_ADDRESS ∧
    c4Env.mintProgramAddress ≠ TOKEN_2022_PROGRAM_ADDRESS ∧
    createGaslessApprovalPayment c4Client 1 c4Req ⟨true, some c4Qd⟩ c4Env =
      ([.fetchMint c4Req.asset],
       .error "Asset was not created by a known token program") :=
  ⟨by decide, by decide,
    (claim_C4_amended c4Client 1 c4Req c4Qd c4Env).1 (by decide) (by decide)⟩

theorem claim_C5_witness :
    ServerEvent.serveResource ∈
      (handleRequest [wReqFee] (some (encodePayment wPayload)) ⟨true, true⟩).1 ∧
    (⟨true, true⟩ : FacilitatorModel).verifyOk = true := by
  have hdec : decodePayment (encodePayment wPayload) = some wPayload :=
    decodePayment_encodePayment wPayload (by decide)
  have hev : (handleRequest [wReqFee] (some (encodePayment wPayload))
      ⟨true, true⟩).1 = [.verifyCall, .serveResource, .settleCall] := by
    simp [handleRequest, hdec,
      show findRequirement [wReqFee] wPayload = some wReqFee from by decide]
  refine ⟨?_,
    (claim_C5_verify_serve_settle_order [wReqFee] (some (encodePayment wPayload))
      ⟨true, true⟩).2.1 ?_⟩
  · rw [hev]
    simp
  · rw [hev]
    simp

theorem claim_C6_witness :
    payloadWF wPayload ∧
    decodePayment (encodePayment wPayload) = some wPayload :=
  ⟨by decide, claim_C6_wire_round_trip wPayload (by decide)⟩

theorem claim_C7_witness :
    wOkNet (getPaymentQuote "s" "solana" "d" "base" "1" "https://f.example"
        wOkNet).1 = .response 200 "" (some ⟨true, some wQd⟩) ∧
    respOk 200 = true ∧
    (getPaymentQuote "s" "solana" "d" "base" "1" "https://f.example" wOkNet).2 =
      .ok ⟨true, some wQd⟩ :=
  ⟨rfl, by decide,
    (claim_C7_amended "s" "solana" "d" "base" "1" "https://f.example"
      wOkNet).2.2.2.2 200 "" ⟨true, some wQd⟩ rfl (by decide)⟩

theorem claim_C8_witness :
    cexNet (getPaymentQuote "s" "solana" "d" "base" "1" "https://f.example"
        cexNet).1 = .transportFailure "connection refused" ∧
    (getPaymentQuote "s" "solana" "d" "base" "1" "https://f.example" cexNet).2 =
      .error (.fetchRejection "connection refused") :=
  ⟨rfl,
    (claim_C8_transport_vs_protocol "s" "solana" "d" "base" "1"
      "https://f.example" cexNet).1 "connection refused" rfl⟩

theorem claim_C10_witness :
    wClient.signature = some (strB "sg") ∧
    wQd.paymentAmount < 2 ^ 64 ∧
    ([2, 0, 0, 0] ++ leBytes 8 wQd.paymentAmount).length = 12 :=
  ⟨rfl, by decide,
    (claim_C10_native_instruction_bytes wClient 1 wReqFee wQd wEnv (strB "sg")
      rfl (by decide)).2.1⟩

end X402